import Mathlib

/-!
Verification development for the NCursesBridge header
(Sources/NCursesBridge/ncurses_bridge.h).

The header declares nine inline C functions that forward to ncurses
primitives.  We shallowly embed a model of the relevant ncurses
primitives (windows, cursor movement, character and formatted output,
attribute constants) and translate each bridge function from its C body.
Machine integers: chtype is modelled as Nat (bit operations on the
unsigned 32-bit value never overflow under and/or), C int results as Int
with OK = 0 and ERR = -1, and output pointers as addresses (Nat) into an
explicit memory (Nat to Int).
-/

namespace NCursesBridge

/-- ncurses status code OK (the value 0). -/
def OK : Int := 0

/-- ncurses status code ERR (the value -1). -/
def ERR : Int := -1

/-! ### ncurses attribute constants

Values of the A_* macros from ncurses.h with NCURSES_ATTR_SHIFT = 8:
NCURSES_BITS(mask, shift) = mask <<< (shift + 8). -/

/-- ncurses macro A_NORMAL = 0. -/
def A_NORMAL : Nat := 0

/-- ncurses macro A_CHARTEXT = NCURSES_BITS(1,0) - 1: the low 8 character bits. -/
def A_CHARTEXT : Nat := 2 ^ 8 - 1

/-- ncurses macro A_ATTRIBUTES: all bits above the character byte
(bits 8..31 of the 32-bit chtype). -/
def A_ATTRIBUTES : Nat := 2 ^ 32 - 2 ^ 8

/-- ncurses macro A_STANDOUT = NCURSES_BITS(1,8). -/
def A_STANDOUT : Nat := 2 ^ 16

/-- ncurses macro A_UNDERLINE = NCURSES_BITS(1,9). -/
def A_UNDERLINE : Nat := 2 ^ 17

/-- ncurses macro A_REVERSE = NCURSES_BITS(1,10). -/
def A_REVERSE : Nat := 2 ^ 18

/-- ncurses macro A_BLINK = NCURSES_BITS(1,11). -/
def A_BLINK : Nat := 2 ^ 19

/-- ncurses macro A_DIM = NCURSES_BITS(1,12). -/
def A_DIM : Nat := 2 ^ 20

/-- ncurses macro A_BOLD = NCURSES_BITS(1,13). -/
def A_BOLD : Nat := 2 ^ 21

/-- The union of the six attribute flags the specification recognizes
(bold, dim, reverse, standout, underline; normal contributes no bit). -/
def recognizedMask : Nat :=
  A_BOLD ||| A_DIM ||| A_REVERSE ||| A_STANDOUT ||| A_UNDERLINE ||| A_NORMAL

/-! ### Window model -/

/-- Model of an ncurses WINDOW: dimensions, cursor position, current
window attribute rendition, and the cell grid (each cell one chtype). -/
structure Window where
  maxy : Nat
  maxx : Nat
  cury : Nat
  curx : Nat
  attrs : Nat
  grid : Nat → Nat → Nat

/-- Pointwise update of a cell grid. -/
def gridUpdate (g : Nat → Nat → Nat) (r c v : Nat) : Nat → Nat → Nat :=
  fun r2 c2 => if r2 = r ∧ c2 = c then v else g r2 c2

/-- Model of the ncurses getmaxy macro: the window row count as a C int. -/
def getmaxy (w : Window) : Int := w.maxy

/-- Model of the ncurses getmaxx macro: the window column count as a C int. -/
def getmaxx (w : Window) : Int := w.maxx

/-- A position (y, x) given as C ints is inside the window. -/
def validPos (w : Window) (y x : Int) : Prop :=
  0 ≤ y ∧ y < getmaxy w ∧ 0 ≤ x ∧ x < getmaxx w

instance (w : Window) (y x : Int) : Decidable (validPos w y x) := by
  unfold validPos; infer_instance

/-- Model of ncurses wmove: set the cursor when the target is inside the
window and return OK, otherwise return ERR and leave the window alone. -/
def wmove (w : Window) (y x : Int) : Int × Window :=
  if validPos w y x then
    (OK, { w with cury := y.toNat, curx := x.toNat })
  else
    (ERR, w)

/-- Model of ncurses waddch: store the character (its rendition or-ed with
the window attributes) at the cursor and advance the cursor, wrapping at
the right margin; at the bottom-right corner (no scrolling) the cursor
stays and ERR is returned, though the cell is written. -/
def waddch (w : Window) (ch : Nat) : Int × Window :=
  let g := gridUpdate w.grid w.cury w.curx (ch ||| w.attrs)
  if w.curx + 1 < w.maxx then
    (OK, { w with grid := g, curx := w.curx + 1 })
  else if w.cury + 1 < w.maxy then
    (OK, { w with grid := g, cury := w.cury + 1, curx := 0 })
  else
    (ERR, { w with grid := g })

/-- Model of ncurses waddstr on an explicit character list: write the
characters one by one via waddch, stopping with ERR on the first failed
write. -/
def waddstrAux (w : Window) : List Char → Int × Window
  | [] => (OK, w)
  | c :: cs =>
    if (waddch w c.toNat).1 = ERR then (ERR, (waddch w c.toNat).2)
    else waddstrAux (waddch w c.toNat).2 cs

/-- An argument of a variadic printw-style call: a C string or an int. -/
inductive FmtArg where
  | str (s : String)
  | num (n : Int)

/-- Model of printf-style format processing as used by vw_printw: percent
followed by percent emits a literal percent, percent-s consumes a string
argument, percent-d consumes an int argument; a conversion lacking its
argument, a conversion this model does not cover, or a trailing lone
percent is C undefined behaviour, returned as none. -/
def formatFmt : List Char → List FmtArg → Option (List Char)
  | [], _ => some []
  | c :: rest, args =>
    if c = '%' then
      match rest with
      | [] => none
      | d :: rest2 =>
        if d = '%' then
          (fun out => '%' :: out) <$> formatFmt rest2 args
        else if d = 's' then
          match args with
          | FmtArg.str s :: args2 =>
            (fun out => s.data ++ out) <$> formatFmt rest2 args2
          | _ => none
        else if d = 'd' then
          match args with
          | FmtArg.num n :: args2 =>
            (fun out => (toString n).data ++ out) <$> formatFmt rest2 args2
          | _ => none
        else none
    else
      (fun out => c :: out) <$> formatFmt rest args

/-- Model of ncurses mvwaddch: move, then add the character; ERR when the
move fails. -/
def mvwaddch (w : Window) (y x : Int) (ch : Nat) : Int × Window :=
  if (wmove w y x).1 = ERR then (ERR, (wmove w y x).2)
  else waddch (wmove w y x).2 ch

/-- Model of ncurses mvwprintw: move (ERR when the move fails, reported
before any formatting), then format and write the result; none marks C
undefined behaviour in the format processing. -/
def mvwprintw (w : Window) (y x : Int) (fmt : String) (args : List FmtArg) :
    Option (Int × Window) :=
  if (wmove w y x).1 = ERR then some (ERR, (wmove w y x).2)
  else
    match formatFmt fmt.data args with
    | none => none
    | some out => some (waddstrAux (wmove w y x).2 out)

/-- Memory update at an address: the store *p = v. -/
def memUpdate (m : Nat → Int) (p : Nat) (v : Int) : Nat → Int :=
  fun a => if a = p then v else m a

/-! ### The bridge functions, translated from ncurses_bridge.h -/

/-- bridge_getmaxyx(win, y, x): performs *y = getmaxy(win); then
*x = getmaxx(win); returning the updated memory. -/
def bridge_getmaxyx (win : Window) (mem : Nat → Int) (py px : Nat) :
    Nat → Int :=
  memUpdate (memUpdate mem py (getmaxy win)) px (getmaxx win)

/-- bridge_mvwprintw(win, y, x, str): returns
mvwprintw(win, y, x, percent-s, str). -/
def bridge_mvwprintw (win : Window) (y x : Int) (str : String) :
    Option (Int × Window) :=
  mvwprintw win y x "%s" [FmtArg.str str]

/-- bridge_mvwaddch(win, y, x, ch): returns mvwaddch(win, y, x, ch). -/
def bridge_mvwaddch (win : Window) (y x : Int) (ch : Nat) : Int × Window :=
  mvwaddch win y x ch

/-- bridge_a_bold(): returns A_BOLD. -/
def bridge_a_bold (_u : Unit) : Int := A_BOLD

/-- bridge_a_normal(): returns A_NORMAL. -/
def bridge_a_normal (_u : Unit) : Int := A_NORMAL

/-- bridge_a_dim(): returns A_DIM. -/
def bridge_a_dim (_u : Unit) : Int := A_DIM

/-- bridge_a_reverse(): returns A_REVERSE. -/
def bridge_a_reverse (_u : Unit) : Int := A_REVERSE

/-- bridge_a_standout(): returns A_STANDOUT. -/
def bridge_a_standout (_u : Unit) : Int := A_STANDOUT

/-- bridge_a_underline(): returns A_UNDERLINE. -/
def bridge_a_underline (_u : Unit) : Int := A_UNDERLINE

/-! ### The bridge as an instrumented capability surface

To state what the header does and does not provide, we enumerate its nine
declared functions as calls acting on a machine state: the window, the
caller memory (for the output pointers of bridge_getmaxyx), and the
terminal's pending raw input (which a key-read primitive would consume,
and which no declared function touches). -/

/-- Machine state a bridge call acts on: the window, the caller memory,
and the pending raw terminal input. -/
structure BState where
  win : Window
  mem : Nat → Int
  pendingInput : List Int

/-- One call to a function declared in ncurses_bridge.h, with its
arguments. -/
inductive BridgeCall where
  | getmaxyxC (py px : Nat)
  | mvwprintwC (y x : Int) (s : String)
  | mvwaddchC (y x : Int) (ch : Nat)
  | aBoldC
  | aNormalC
  | aDimC
  | aReverseC
  | aStandoutC
  | aUnderlineC

/-- Execute one bridge call on a machine state, returning the new state
and the C int result (0 for the void-returning bridge_getmaxyx; the
unreachable undefined-behaviour branch of bridge_mvwprintw is mapped to
ERR). -/
def execBridge (c : BridgeCall) (s : BState) : BState × Int :=
  match c with
  | BridgeCall.getmaxyxC py px =>
    ({ s with mem := bridge_getmaxyx s.win s.mem py px }, 0)
  | BridgeCall.mvwprintwC y x str =>
    match bridge_mvwprintw s.win y x str with
    | some rw => ({ s with win := rw.2 }, rw.1)
    | none => (s, ERR)
  | BridgeCall.mvwaddchC y x ch =>
    ({ s with win := (bridge_mvwaddch s.win y x ch).2 },
      (bridge_mvwaddch s.win y x ch).1)
  | BridgeCall.aBoldC => (s, bridge_a_bold ())
  | BridgeCall.aNormalC => (s, bridge_a_normal ())
  | BridgeCall.aDimC => (s, bridge_a_dim ())
  | BridgeCall.aReverseC => (s, bridge_a_reverse ())
  | BridgeCall.aStandoutC => (s, bridge_a_standout ())
  | BridgeCall.aUnderlineC => (s, bridge_a_underline ())

/-! ### Underlying-library call traces

Each bridge write function's C body is a single return of a single
library call; its call trace is that one call. -/

/-- One ncurses library write call. -/
inductive LibCall where
  | mvwaddchL (y x : Int) (ch : Nat)
  | mvwprintwL (y x : Int) (fmt : String) (args : List FmtArg)

/-- Run one library write call on a window. -/
def runLib (c : LibCall) (w : Window) : Option (Int × Window) :=
  match c with
  | LibCall.mvwaddchL y x ch => some (mvwaddch w y x ch)
  | LibCall.mvwprintwL y x fmt args => mvwprintw w y x fmt args

/-- The library calls the body of bridge_mvwaddch(win, y, x, ch) performs:
the single call mvwaddch(win, y, x, ch). -/
def bridgeAddchCalls (y x : Int) (ch : Nat) : List LibCall :=
  [LibCall.mvwaddchL y x ch]

/-- The library calls the body of bridge_mvwprintw(win, y, x, str)
performs: the single call mvwprintw(win, y, x, percent-s, str). -/
def bridgePrintwCalls (y x : Int) (str : String) : List LibCall :=
  [LibCall.mvwprintwL y x "%s" [FmtArg.str str]]

/-! ### Capability predicates over the declared surface -/

/-- The surface can query the window size: for any two distinct output
addresses there is a call that deposits the row count at the first and
the column count at the second, on every state. -/
def providesSizeQuery : Prop :=
  ∀ py px : Nat, py ≠ px → ∃ c : BridgeCall, ∀ s : BState,
    (execBridge c s).1.mem py = getmaxy s.win ∧
    (execBridge c s).1.mem px = getmaxx s.win

/-- The surface can move the cursor: for every target there is a call
that, on every state where the target is valid, leaves the cursor at the
target without changing the cell grid. -/
def providesMoveCursor : Prop :=
  ∀ y x : Int, ∃ c : BridgeCall, ∀ s : BState, validPos s.win y x →
    (execBridge c s).1.win.cury = y.toNat ∧
    (execBridge c s).1.win.curx = x.toNat ∧
    (execBridge c s).1.win.grid = s.win.grid

/-- The surface can write a character at a position: for every valid
target and character there is a call that stores it in that cell (stated
for windows whose current rendition is A_NORMAL, so the stored chtype is
the argument itself). -/
def providesCellWrite : Prop :=
  ∀ (y x : Int) (ch : Nat), ∃ c : BridgeCall, ∀ s : BState,
    validPos s.win y x → s.win.attrs = A_NORMAL →
    (execBridge c s).1.win.grid y.toNat x.toNat = ch

/-- The surface can set or clear attribute flags: some call changes the
window's current attribute rendition on some state. -/
def providesAttrSetClear : Prop :=
  ∃ (c : BridgeCall) (s : BState),
    (execBridge c s).1.win.attrs ≠ s.win.attrs

/-- The surface can read raw input: some call consumes pending terminal
input on some state. -/
def providesReadKey : Prop :=
  ∃ (c : BridgeCall) (s : BState),
    (execBridge c s).1.pendingInput ≠ s.pendingInput

/-! ### Claim statements taken literally, and spec-side contracts -/

/-- Modelled from the spec: the typed string-write contract — move to
(y, x), then write the characters of str one by one as plain data,
none interpreted as a format directive. -/
def specLiteralWrite (win : Window) (y x : Int) (str : String) :
    Int × Window :=
  if (wmove win y x).1 = ERR then (ERR, (wmove win y x).2)
  else waddstrAux (wmove win y x).2 str.data

/-- Claim C1 taken literally: every bridge function equals the primitive
it names applied to the same arguments; in particular
bridge_mvwprintw(win, y, x, str) equals mvwprintw(win, y, x, str) with no
variadic arguments. -/
def claimC1Stmt : Prop :=
  (∀ (win : Window) (y x : Int) (ch : Nat),
    bridge_mvwaddch win y x ch = mvwaddch win y x ch) ∧
  (∀ (win : Window) (y x : Int) (str : String),
    bridge_mvwprintw win y x str = mvwprintw win y x str []) ∧
  (∀ (win : Window) (mem : Nat → Int) (py px : Nat), py ≠ px →
    bridge_getmaxyx win mem py px py = getmaxy win ∧
    bridge_getmaxyx win mem py px px = getmaxx win)

/-- Claim C3 taken literally: the declared surface provides all five
capabilities of the fixed capability set. -/
def claimC3Stmt : Prop :=
  providesSizeQuery ∧ providesMoveCursor ∧ providesCellWrite ∧
    providesAttrSetClear ∧ providesReadKey

/-- Claim C4 taken literally: for every window and non-null (possibly
equal) output pointers, the height lands at the first address and the
width at the second. -/
def claimC4Stmt : Prop :=
  ∀ (win : Window) (mem : Nat → Int) (py px : Nat), py ≠ 0 → px ≠ 0 →
    bridge_getmaxyx win mem py px py = getmaxy win ∧
    bridge_getmaxyx win mem py px px = getmaxx win

/-- The chtype argument carries an attribute flag outside the recognized
set: its attribute bits are not covered by recognizedMask. -/
def hasUnrecognizedAttr (ch : Nat) : Prop :=
  (ch &&& A_ATTRIBUTES) ||| recognizedMask ≠ recognizedMask

instance (ch : Nat) : Decidable (hasUnrecognizedAttr ch) := by
  unfold hasUnrecognizedAttr; infer_instance

/-- Claim C6 taken literally: a cell write whose chtype carries an
unrecognized attribute flag fails. -/
def claimC6Stmt : Prop :=
  ∀ (win : Window) (y x : Int) (ch : Nat), hasUnrecognizedAttr ch →
    (bridge_mvwaddch win y x ch).1 = ERR

/-! ### Concrete fixtures -/

/-- A concrete 3-row, 10-column window, cursor at the origin, normal
rendition, blank (space-filled) grid. -/
def win0 : Window :=
  { maxy := 3, maxx := 10, cury := 0, curx := 0, attrs := A_NORMAL,
    grid := fun _ _ => 32 }

/-- A concrete zero-filled caller memory. -/
def mem0 : Nat → Int := fun _ => 0

/-- A concrete machine state over win0 with two pending raw input codes. -/
def bstate0 : BState :=
  { win := win0, mem := mem0, pendingInput := [65, 66] }

/-! ### Helper lemmas -/

/-- Formatting the fixed percent-s format with one string argument yields
exactly that string: no character of the argument is processed as format
text. -/
theorem formatFmt_percent_s (s : String) :
    formatFmt "%s".data [FmtArg.str s] = some s.data := by
  show some (s.data ++ []) = some s.data
  rw [List.append_nil]

/-- Formatting a character list containing no percent sign with no
arguments returns it unchanged. -/
theorem formatFmt_no_percent (l : List Char) (args : List FmtArg)
    (h : '%' ∉ l) : formatFmt l args = some l := by
  induction l with
  | nil => rfl
  | cons c rest ih =>
    rw [List.mem_cons] at h
    push_neg at h
    have hc : ¬ c = '%' := fun e => h.1 e.symm
    unfold formatFmt
    rw [if_neg hc, ih h.2]
    rfl

/-- waddch leaves the window attribute rendition unchanged. -/
theorem waddch_attrs (w : Window) (ch : Nat) :
    (waddch w ch).2.attrs = w.attrs := by
  unfold waddch
  split
  · rfl
  · split <;> rfl

/-- waddstrAux leaves the window attribute rendition unchanged. -/
theorem waddstrAux_attrs (l : List Char) (w : Window) :
    (waddstrAux w l).2.attrs = w.attrs := by
  induction l generalizing w with
  | nil => rfl
  | cons c cs ih =>
    unfold waddstrAux
    split
    · exact waddch_attrs w c.toNat
    · rw [ih]
      exact waddch_attrs w c.toNat

/-- mvwaddch leaves the window attribute rendition unchanged. -/
theorem mvwaddch_attrs (w : Window) (y x : Int) (ch : Nat) :
    (mvwaddch w y x ch).2.attrs = w.attrs := by
  unfold mvwaddch wmove
  by_cases hv : validPos w y x
  · rw [if_pos hv]
    simp only [OK, ERR]
    norm_num
    exact waddch_attrs _ ch
  · rw [if_neg hv]
    simp [ERR]

/-- mvwprintw, whenever defined, leaves the window attribute rendition
unchanged. -/
theorem mvwprintw_attrs (w : Window) (y x : Int) (fmt : String)
    (args : List FmtArg) (r : Int) (w2 : Window)
    (h : mvwprintw w y x fmt args = some (r, w2)) : w2.attrs = w.attrs := by
  unfold mvwprintw wmove at h
  by_cases hv : validPos w y x
  · rw [if_pos hv] at h
    simp only [OK, ERR] at h
    norm_num at h
    rcases hfmt : formatFmt fmt.data args with _ | out
    · rw [hfmt] at h
      exact absurd h (by simp)
    · rw [hfmt] at h
      simp only [Option.some.injEq] at h
      have h2 : w2 = (waddstrAux { w with cury := y.toNat, curx := x.toNat } out).2 := by
        rw [h]
      rw [h2, waddstrAux_attrs]
  · rw [if_neg hv] at h
    simp only [ERR, if_pos] at h
    simp only [Option.some.injEq, Prod.mk.injEq] at h
    rw [← h.2]

/-- OK and ERR are distinct status codes. -/
theorem OK_ne_ERR : ¬ OK = ERR := by decide

/-- wmove at a valid position sets the cursor and reports OK. -/
theorem wmove_pos (w : Window) (y x : Int) (hv : validPos w y x) :
    wmove w y x = (OK, { w with cury := y.toNat, curx := x.toNat }) := by
  unfold wmove
  rw [if_pos hv]

/-- waddch stores the character or-ed with the window rendition at the
cursor cell. -/
theorem waddch_writes (w : Window) (ch : Nat) :
    (waddch w ch).2.grid w.cury w.curx = ch ||| w.attrs := by
  unfold waddch
  split
  · simp [gridUpdate]
  · split <;> simp [gridUpdate]

/-- bridge_mvwaddch at a valid position stores the character or-ed with
the window rendition in the addressed cell. -/
theorem bridge_mvwaddch_writes (w : Window) (y x : Int) (ch : Nat)
    (hv : validPos w y x) :
    (bridge_mvwaddch w y x ch).2.grid y.toNat x.toNat = ch ||| w.attrs := by
  unfold bridge_mvwaddch mvwaddch
  rw [wmove_pos w y x hv]
  simp only [OK, ERR]
  norm_num
  exact waddch_writes { w with cury := y.toNat, curx := x.toNat } ch

/-- The body of bridge_mvwprintw — one mvwprintw call with the fixed
percent-s format — is always defined and coincides with the literal
string-write contract. -/
theorem bridge_mvwprintw_literal (win : Window) (y x : Int) (str : String) :
    bridge_mvwprintw win y x str = some (specLiteralWrite win y x str) := by
  unfold bridge_mvwprintw mvwprintw specLiteralWrite
  by_cases h : (wmove win y x).1 = ERR
  · rw [if_pos h, if_pos h]
  · rw [if_neg h, if_neg h, formatFmt_percent_s str]

/-- Executing any declared bridge call never changes the pending terminal
input: the surface has no input-consuming operation. -/
theorem execBridge_pendingInput (c : BridgeCall) (s : BState) :
    (execBridge c s).1.pendingInput = s.pendingInput := by
  cases c with
  | getmaxyxC py px => rfl
  | mvwprintwC y x str =>
    unfold execBridge
    rcases h : bridge_mvwprintw s.win y x str with _ | rw2 <;> simp [h]
  | mvwaddchC y x ch => rfl
  | aBoldC => rfl
  | aNormalC => rfl
  | aDimC => rfl
  | aReverseC => rfl
  | aStandoutC => rfl
  | aUnderlineC => rfl

/-- Executing any declared bridge call never changes the window's current
attribute rendition: the surface has no attribute set or clear
operation. -/
theorem execBridge_attrs (c : BridgeCall) (s : BState) :
    (execBridge c s).1.win.attrs = s.win.attrs := by
  cases c with
  | getmaxyxC py px => rfl
  | mvwprintwC y x str =>
    unfold execBridge
    rcases hrw : bridge_mvwprintw s.win y x str with _ | rw2
    · simp [hrw]
    · simp only [hrw]
      exact mvwprintw_attrs s.win y x "%s" [FmtArg.str str] rw2.1 rw2.2 hrw
  | mvwaddchC y x ch =>
    unfold execBridge bridge_mvwaddch
    exact mvwaddch_attrs s.win y x ch
  | aBoldC => rfl
  | aNormalC => rfl
  | aDimC => rfl
  | aReverseC => rfl
  | aStandoutC => rfl
  | aUnderlineC => rfl

/-- The declared surface can query the window size, through
bridge_getmaxyx. -/
theorem providesSizeQuery_holds : providesSizeQuery := by
  intro py px hne
  refine ⟨BridgeCall.getmaxyxC py px, fun s => ⟨?_, ?_⟩⟩
  · show memUpdate (memUpdate s.mem py (getmaxy s.win)) px (getmaxx s.win) py
      = getmaxy s.win
    unfold memUpdate
    rw [if_neg hne, if_pos rfl]
  · show memUpdate (memUpdate s.mem py (getmaxy s.win)) px (getmaxx s.win) px
      = getmaxx s.win
    unfold memUpdate
    rw [if_pos rfl]

/-- The declared surface can move the cursor without writing, through
bridge_mvwprintw with the empty string. -/
theorem providesMoveCursor_holds : providesMoveCursor := by
  intro y x
  refine ⟨BridgeCall.mvwprintwC y x "", fun s hv => ?_⟩
  have hspec : specLiteralWrite s.win y x "" =
      (OK, { s.win with cury := y.toNat, curx := x.toNat }) := by
    unfold specLiteralWrite
    rw [wmove_pos s.win y x hv]
    simp only [OK, ERR]
    norm_num
    rfl
  have hlit := bridge_mvwprintw_literal s.win y x ""
  rw [hspec] at hlit
  simp only [execBridge]
  rw [hlit]
  exact ⟨rfl, rfl, rfl⟩

/-- The declared surface can write a character at a position, through
bridge_mvwaddch. -/
theorem providesCellWrite_holds : providesCellWrite := by
  intro y x ch
  refine ⟨BridgeCall.mvwaddchC y x ch, fun s hv hattr => ?_⟩
  show (bridge_mvwaddch s.win y x ch).2.grid y.toNat x.toNat = ch
  rw [bridge_mvwaddch_writes s.win y x ch hv, hattr]
  simp [A_NORMAL]

/-- The declared surface has no operation that sets or clears attribute
flags. -/
theorem noAttrSetClear : ¬ providesAttrSetClear :=
  fun ⟨c, s, hne⟩ => hne (execBridge_attrs c s)

/-- The declared surface has no operation that reads raw input. -/
theorem noReadKey : ¬ providesReadKey :=
  fun ⟨c, s, hne⟩ => hne (execBridge_pendingInput c s)

/-! ### Claim C1 -/

/-- C1 is false as stated: bridge_mvwprintw(win, y, x, str) does not equal
mvwprintw(win, y, x, str) on the same arguments.  At str = two percent
signs the bridge writes both characters verbatim while the direct call
collapses them to one. -/
theorem claim_C1_counterexample : ¬ claimC1Stmt := by
  intro h
  have he := h.2.1 win0 0 0 "%%"
  have h1 : (bridge_mvwprintw win0 0 0 "%%").map (fun rw2 => rw2.2.grid 0 1)
      = some 37 := by decide
  rw [he] at h1
  have h2 : (mvwprintw win0 0 0 "%%" []).map (fun rw2 => rw2.2.grid 0 1)
      = some 32 := by decide
  rw [h2] at h1
  exact absurd h1 (by decide)

/-- C1 (amended): bridge_mvwaddch and bridge_getmaxyx forward to the named
primitive on the same arguments; bridge_mvwprintw forwards to mvwprintw
with the fixed percent-s format and str as its single variadic argument,
which agrees with mvwprintw(win, y, x, str) exactly when str contains no
percent character. -/
theorem claim_C1_amended :
    (∀ (win : Window) (y x : Int) (ch : Nat),
      bridge_mvwaddch win y x ch = mvwaddch win y x ch) ∧
    (∀ (win : Window) (mem : Nat → Int) (py px : Nat), py ≠ px →
      bridge_getmaxyx win mem py px py = getmaxy win ∧
      bridge_getmaxyx win mem py px px = getmaxx win) ∧
    (∀ (win : Window) (y x : Int) (str : String),
      bridge_mvwprintw win y x str = mvwprintw win y x "%s" [FmtArg.str str]) ∧
    (∀ (win : Window) (y x : Int) (str : String), '%' ∉ str.data →
      bridge_mvwprintw win y x str = mvwprintw win y x str []) := by
  refine ⟨fun _ _ _ _ => rfl, fun win mem py px hne => ⟨?_, ?_⟩,
    fun _ _ _ _ => rfl, fun win y x str h => ?_⟩
  · unfold bridge_getmaxyx memUpdate
    rw [if_neg hne, if_pos rfl]
  · unfold bridge_getmaxyx memUpdate
    rw [if_pos rfl]
  · unfold bridge_mvwprintw mvwprintw
    by_cases hm : (wmove win y x).1 = ERR
    · rw [if_pos hm, if_pos hm]
    · rw [if_neg hm, if_neg hm, formatFmt_percent_s str,
        formatFmt_no_percent str.data [] h]

/-- Witness for C1 (amended) at concrete inputs. -/
theorem claim_C1_amended_witness :
    bridge_mvwaddch win0 0 0 65 = mvwaddch win0 0 0 65 ∧
    bridge_getmaxyx win0 mem0 1 2 1 = getmaxy win0 ∧
    bridge_getmaxyx win0 mem0 1 2 2 = getmaxx win0 ∧
    bridge_mvwprintw win0 0 1 "hi" = mvwprintw win0 0 1 "hi" [] :=
  ⟨claim_C1_amended.1 win0 0 0 65,
   (claim_C1_amended.2.1 win0 mem0 1 2 (by decide)).1,
   (claim_C1_amended.2.1 win0 mem0 1 2 (by decide)).2,
   claim_C1_amended.2.2.2 win0 0 1 "hi" (by decide)⟩

/-! ### Claim C2 -/

/-- C2: for every string, including strings containing percent conversion
specifiers, bridge_mvwprintw writes the string verbatim as data: its
result is exactly the literal string-write contract, so no character of
the argument is interpreted as a format directive. -/
theorem claim_C2 (win : Window) (y x : Int) (str : String) :
    bridge_mvwprintw win y x str = some (specLiteralWrite win y x str) :=
  bridge_mvwprintw_literal win y x str

/-! ### Claim C3 -/

/-- C3 is false as stated: the declared surface does not provide all five
capabilities; in particular no declared function reads raw input (and
none sets or clears attribute state). -/
theorem claim_C3_counterexample : ¬ claimC3Stmt :=
  fun h => noReadKey h.2.2.2.2

/-- C3 (amended): the declared surface provides the size query, cursor
movement (through an empty positioned write), positioned character
writes, and the six attribute constants as plain calls; it provides no
operation that sets or clears attribute flags and no operation that
reads raw input. -/
theorem claim_C3_amended :
    providesSizeQuery ∧ providesMoveCursor ∧ providesCellWrite ∧
    (∀ s : BState,
      execBridge BridgeCall.aBoldC s = (s, (A_BOLD : Int)) ∧
      execBridge BridgeCall.aNormalC s = (s, (A_NORMAL : Int)) ∧
      execBridge BridgeCall.aDimC s = (s, (A_DIM : Int)) ∧
      execBridge BridgeCall.aReverseC s = (s, (A_REVERSE : Int)) ∧
      execBridge BridgeCall.aStandoutC s = (s, (A_STANDOUT : Int)) ∧
      execBridge BridgeCall.aUnderlineC s = (s, (A_UNDERLINE : Int))) ∧
    ¬ providesAttrSetClear ∧ ¬ providesReadKey :=
  ⟨providesSizeQuery_holds, providesMoveCursor_holds, providesCellWrite_holds,
   fun _ => ⟨rfl, rfl, rfl, rfl, rfl, rfl⟩, noAttrSetClear, noReadKey⟩

/-! ### Claim C4 -/

/-- C4 is false as stated: with aliased (equal, non-null) output pointers
the second store overwrites the first, so the height is lost whenever the
window is not square. -/
theorem claim_C4_counterexample : ¬ claimC4Stmt := by
  intro h
  have hc := (h win0 mem0 1 1 (by decide) (by decide)).1
  exact absurd hc (by decide)

/-- C4 (amended): for every window and distinct output pointers,
bridge_getmaxyx stores getmaxy(win) through the first pointer and
getmaxx(win) through the second. -/
theorem claim_C4_amended (win : Window) (mem : Nat → Int) (py px : Nat)
    (hne : py ≠ px) :
    bridge_getmaxyx win mem py px py = getmaxy win ∧
    bridge_getmaxyx win mem py px px = getmaxx win := by
  constructor
  · unfold bridge_getmaxyx memUpdate
    rw [if_neg hne, if_pos rfl]
  · unfold bridge_getmaxyx memUpdate
    rw [if_pos rfl]

/-- Witness for C4 (amended) at concrete inputs. -/
theorem claim_C4_amended_witness :
    bridge_getmaxyx win0 mem0 5 7 5 = getmaxy win0 ∧
    bridge_getmaxyx win0 mem0 5 7 7 = getmaxx win0 :=
  claim_C4_amended win0 mem0 5 7 (by decide)

/-! ### Claim C5 -/

/-- C5: each of the six no-argument bridge attribute functions returns
exactly the value of the matching ncurses macro constant. -/
theorem claim_C5 :
    bridge_a_bold () = (A_BOLD : Int) ∧
    bridge_a_normal () = (A_NORMAL : Int) ∧
    bridge_a_dim () = (A_DIM : Int) ∧
    bridge_a_reverse () = (A_REVERSE : Int) ∧
    bridge_a_standout () = (A_STANDOUT : Int) ∧
    bridge_a_underline () = (A_UNDERLINE : Int) :=
  ⟨rfl, rfl, rfl, rfl, rfl, rfl⟩

/-! ### Claim C6 -/

/-- C6 is false as stated: bridge_mvwaddch performs no attribute
validation; a chtype carrying the unrecognized A_BLINK flag is written
successfully (result OK) instead of being rejected. -/
theorem claim_C6_counterexample : ¬ claimC6Stmt := by
  intro h
  have hc := h win0 0 0 (65 ||| A_BLINK) (by decide)
  exact absurd hc (by decide)

/-- C6 (amended): the bridge rejects nothing: at a valid position (on a
window with normal rendition) the chtype argument is stored in the cell
bit-for-bit, unrecognized attribute flags included. -/
theorem claim_C6_amended (win : Window) (y x : Int) (ch : Nat)
    (hv : validPos win y x) (hattr : win.attrs = A_NORMAL)
    (_hflag : hasUnrecognizedAttr ch) :
    (bridge_mvwaddch win y x ch).2.grid y.toNat x.toNat = ch := by
  rw [bridge_mvwaddch_writes win y x ch hv, hattr]
  simp [A_NORMAL]

/-- Witness for C6 (amended): the A_BLINK-flagged character is stored
unchanged. -/
theorem claim_C6_amended_witness :
    (bridge_mvwaddch win0 0 0 (65 ||| A_BLINK)).2.grid 0 0 = 65 ||| A_BLINK :=
  claim_C6_amended win0 0 0 (65 ||| A_BLINK) (by decide) rfl (by decide)

/-! ### Claim C7 -/

/-- C7: each bridge write performs exactly one underlying library write
(its call trace has length one) and returns that call's status unchanged;
in particular when the underlying write fails the result is still the
single call's result, with no retry. -/
theorem claim_C7 (win : Window) (y x : Int) (ch : Nat) (str : String) :
    (bridgeAddchCalls y x ch).length = 1 ∧
    (bridgePrintwCalls y x str).length = 1 ∧
    runLib (LibCall.mvwaddchL y x ch) win = some (bridge_mvwaddch win y x ch) ∧
    runLib (LibCall.mvwprintwL y x "%s" [FmtArg.str str]) win =
      bridge_mvwprintw win y x str ∧
    ((mvwaddch win y x ch).1 = ERR →
      bridge_mvwaddch win y x ch = mvwaddch win y x ch ∧
      (bridgeAddchCalls y x ch).length = 1) :=
  ⟨rfl, rfl, rfl, rfl, fun _ => ⟨rfl, rfl⟩⟩

/-- Witness for C7 at a concrete failing write (row 5 of a 3-row
window). -/
theorem claim_C7_witness :
    bridge_mvwaddch win0 5 0 65 = mvwaddch win0 5 0 65 ∧
    (bridgeAddchCalls 5 0 65).length = 1 :=
  (claim_C7 win0 5 0 65 "x").2.2.2.2 (by decide)

/-! ### Claim C8 -/

/-- C8: the six attribute functions are constants of the machine state;
bridge_a_normal returns 0, the identity of bitwise or; and the five flag
values are pairwise distinct, nonzero, and bitwise disjoint. -/
theorem claim_C8 :
    (∀ s t : BState,
      (execBridge BridgeCall.aBoldC s).2 = (execBridge BridgeCall.aBoldC t).2 ∧
      (execBridge BridgeCall.aNormalC s).2 =
        (execBridge BridgeCall.aNormalC t).2 ∧
      (execBridge BridgeCall.aDimC s).2 = (execBridge BridgeCall.aDimC t).2 ∧
      (execBridge BridgeCall.aReverseC s).2 =
        (execBridge BridgeCall.aReverseC t).2 ∧
      (execBridge BridgeCall.aStandoutC s).2 =
        (execBridge BridgeCall.aStandoutC t).2 ∧
      (execBridge BridgeCall.aUnderlineC s).2 =
        (execBridge BridgeCall.aUnderlineC t).2) ∧
    bridge_a_normal () = 0 ∧
    (∀ a : Nat, a ||| A_NORMAL = a) ∧
    (A_BOLD ≠ 0 ∧ A_DIM ≠ 0 ∧ A_REVERSE ≠ 0 ∧ A_STANDOUT ≠ 0 ∧
      A_UNDERLINE ≠ 0) ∧
    (A_BOLD ≠ A_DIM ∧ A_BOLD ≠ A_REVERSE ∧ A_BOLD ≠ A_STANDOUT ∧
      A_BOLD ≠ A_UNDERLINE ∧ A_DIM ≠ A_REVERSE ∧ A_DIM ≠ A_STANDOUT ∧
      A_DIM ≠ A_UNDERLINE ∧ A_REVERSE ≠ A_STANDOUT ∧
      A_REVERSE ≠ A_UNDERLINE ∧ A_STANDOUT ≠ A_UNDERLINE) ∧
    (A_BOLD &&& A_DIM = 0 ∧ A_BOLD &&& A_REVERSE = 0 ∧
      A_BOLD &&& A_STANDOUT = 0 ∧ A_BOLD &&& A_UNDERLINE = 0 ∧
      A_DIM &&& A_REVERSE = 0 ∧ A_DIM &&& A_STANDOUT = 0 ∧
      A_DIM &&& A_UNDERLINE = 0 ∧ A_REVERSE &&& A_STANDOUT = 0 ∧
      A_REVERSE &&& A_UNDERLINE = 0 ∧ A_STANDOUT &&& A_UNDERLINE = 0) := by
  refine ⟨fun s t => ⟨rfl, rfl, rfl, rfl, rfl, rfl⟩, rfl, ?_, ?_, ?_, ?_⟩
  · intro a
    simp [A_NORMAL]
  · decide
  · decide
  · decide

/-! ### Claim C9 -/

/-- C9: bridge_getmaxyx is a pure query with an explicit frame: it leaves
the window and the pending input unchanged and writes no memory cell
other than the two output pointers. -/
theorem claim_C9 (s : BState) (py px a : Nat) (ha : a ≠ py) (hb : a ≠ px) :
    (execBridge (BridgeCall.getmaxyxC py px) s).1.win = s.win ∧
    (execBridge (BridgeCall.getmaxyxC py px) s).1.pendingInput =
      s.pendingInput ∧
    (execBridge (BridgeCall.getmaxyxC py px) s).1.mem a = s.mem a := by
  refine ⟨rfl, rfl, ?_⟩
  show memUpdate (memUpdate s.mem py (getmaxy s.win)) px (getmaxx s.win) a
    = s.mem a
  unfold memUpdate
  rw [if_neg hb, if_neg ha]

/-- Witness for C9 at concrete addresses. -/
theorem claim_C9_witness :
    (execBridge (BridgeCall.getmaxyxC 1 2) bstate0).1.win = bstate0.win ∧
    (execBridge (BridgeCall.getmaxyxC 1 2) bstate0).1.pendingInput =
      bstate0.pendingInput ∧
    (execBridge (BridgeCall.getmaxyxC 1 2) bstate0).1.mem 3 = bstate0.mem 3 :=
  claim_C9 bstate0 1 2 3 (by decide) (by decide)

/-! ### Claim C10 -/

/-- C10: attributes are supplied by bitwise or into the single chtype
argument of bridge_mvwaddch: the stored cell's character part equals
ch masked with A_CHARTEXT and its attribute part equals ch masked with
A_ATTRIBUTES (window rendition normal). -/
theorem claim_C10 (win : Window) (y x : Int) (ch : Nat)
    (hv : validPos win y x) (hattr : win.attrs = A_NORMAL) :
    (bridge_mvwaddch win y x ch).2.grid y.toNat x.toNat &&& A_CHARTEXT =
      ch &&& A_CHARTEXT ∧
    (bridge_mvwaddch win y x ch).2.grid y.toNat x.toNat &&& A_ATTRIBUTES =
      ch &&& A_ATTRIBUTES := by
  rw [bridge_mvwaddch_writes win y x ch hv, hattr]
  simp [A_NORMAL]

/-- Witness for C10: a bold X written by or-ing A_BOLD into the chtype. -/
theorem claim_C10_witness :
    (bridge_mvwaddch win0 0 1 (88 ||| A_BOLD)).2.grid 0 1 &&& A_CHARTEXT =
      (88 ||| A_BOLD) &&& A_CHARTEXT ∧
    (bridge_mvwaddch win0 0 1 (88 ||| A_BOLD)).2.grid 0 1 &&& A_ATTRIBUTES =
      (88 ||| A_BOLD) &&& A_ATTRIBUTES :=
  claim_C10 win0 0 1 (88 ||| A_BOLD) (by decide) rfl

end NCursesBridge
